import Mathlib

/-!
Verification of the frame-orchestration core of the Aegis engine
(`src/aegis/graphics/renderer.cpp`), shallowly embedded in Lean 4.

The embedding keeps the source's structure: the cyclic frame-slot
advance of `Renderer::endFrame`, the deferred deletion-queue flush, the
swap-chain acquire/present error handling of `beginFrame`/`endFrame`,
the pass registration of `Renderer::createFrameGraph`, the minimized
surface wait loop of `recreateSwapChain`, the in-flight fence life cycle,
and the one-shot benchmarking harness `benchmarkFrameTimes`.

`MAX_FRAMES_IN_FLIGHT` is declared in a header that is not part of the
sources at hand, so every definition that depends on it is parametrized
over `fif`; the spec only requires a fixed count of at least two
("multi-frame-in-flight", "the CPU may be up to (frames-in-flight − 1)
frames ahead").
-/

namespace Aegis

/-- Source `Renderer::endFrame`, line 347: the cyclic frame-slot advance
`m_currentFrameIndex = (m_currentFrameIndex + 1) % MAX_FRAMES_IN_FLIGHT`. -/
def advanceFrameIndex (fif idx : Nat) : Nat :=
  (idx + 1) % fif

/-- The value of `m_currentFrameIndex` after `n` completed `renderFrame`
calls (each ending with the wrap in `endFrame`), starting from a freshly
constructed `Renderer` (`m_currentFrameIndex = 0`). -/
def frameIndexAfter (fif : Nat) : Nat → Nat
  | 0 => 0
  | n + 1 => advanceFrameIndex fif (frameIndexAfter fif n)

/-- Classification tag of a `DrawBatchRegistry` instance record:
dynamic instances are re-uploaded every frame, everything else is static. -/
inductive InstanceClass where
  | staticInstance
  | dynamicInstance
deriving DecidableEq, Repr

/-- Modelled from the spec: the `DrawBatchRegistry` implementation is not
under the sources at hand (only `renderer.cpp` and the example scenes are).
An instance record is "a reference to a mesh, a reference to a material,
and a classification tag (static vs. dynamic)" (§3). -/
structure InstanceRecord where
  mesh : Nat
  material : Nat
  cls : InstanceClass
deriving DecidableEq, Repr

/-- Modelled from the spec: the Draw Batch Registry tracks the scene's
current set of instance records (§4.3); batches group them by
(mesh, material) but the instance statistics are over the whole set. -/
structure DrawBatchRegistry where
  instances : List InstanceRecord
deriving DecidableEq, Repr

/-- Modelled from the spec: `sceneChanged(scene)` performs a "full
recomputation of batches from the scene's current entity set" (§4.3), so
the registry's instance set afterwards is exactly the scene's current set
of renderable instance records. -/
def DrawBatchRegistry.sceneChanged (_r : DrawBatchRegistry)
    (scene : List InstanceRecord) : DrawBatchRegistry :=
  ⟨scene⟩

/-- Modelled from the spec: `instanceCount()` reports the total number of
tracked instance records (§4.3). -/
def DrawBatchRegistry.instanceCount (r : DrawBatchRegistry) : Nat :=
  r.instances.length

/-- Modelled from the spec: `staticInstanceCount()` reports the number of
instances classified static (§4.3). -/
def DrawBatchRegistry.staticInstanceCount (r : DrawBatchRegistry) : Nat :=
  (r.instances.filter (fun i => i.cls = .staticInstance)).length

/-- Modelled from the spec: `dynamicInstanceCount()` reports the number of
instances classified dynamic (§4.3). -/
def DrawBatchRegistry.dynamicInstanceCount (r : DrawBatchRegistry) : Nat :=
  (r.instances.filter (fun i => i.cls = .dynamicInstance)).length

/-- A registry state reachable from the empty registry by a sequence of
`sceneChanged` calls. -/
def DrawBatchRegistry.afterScenes (scenes : List (List InstanceRecord)) :
    DrawBatchRegistry :=
  scenes.foldl DrawBatchRegistry.sceneChanged ⟨[]⟩

lemma length_filter_cls (l : List InstanceRecord) :
    (l.filter (fun i => i.cls = .staticInstance)).length +
      (l.filter (fun i => i.cls = .dynamicInstance)).length = l.length := by
  induction l with
  | nil => rfl
  | cons a t ih =>
    cases h : a.cls <;> simp [List.filter_cons, h] <;> omega

/-- Source `Renderer::endFrame`, lines 347-348: after the wrap, the deletion
queue of the *new* slot is flushed
(`VulkanContext::flushDeletionQueue(m_currentFrameIndex)`).
Given the slot index at entry to `endFrame`, returns the new slot index
together with the slot whose deletion queue this call flushes. -/
def endFrameWrapAndFlush (fif idx : Nat) : Nat × Nat :=
  let newIdx := (idx + 1) % fif
  (newIdx, newIdx)

/-- The slots flushed by the first `n` `endFrame` calls following a frame
recorded at slot `k`: the `j`-th call flushes `(k + j) % fif`. -/
def flushedSlots (fif k : Nat) : Nat → List Nat
  | 0 => []
  | n + 1 =>
    flushedSlots fif k n ++ [(endFrameWrapAndFlush fif (k + n)).2]

/-- Values of `VkResult` distinguished by `Renderer::beginFrame` and
`Renderer::endFrame` (`renderer.cpp`, lines 289-295 and 341-345): success,
`VK_SUBOPTIMAL_KHR`, `VK_ERROR_OUT_OF_DATE_KHR`, and everything else. -/
inductive VkAcquireResult where
  | success
  | suboptimalKHR
  | errorOutOfDateKHR
  | otherError
deriving DecidableEq, Repr, Fintype

/-- Outcome of the image-acquisition prefix of `Renderer::beginFrame`. -/
structure AcquireOutcome where
  /-- how many times `recreateSwapChain()` ran -/
  recreations : Nat
  /-- how many times `m_swapChain.acquireNextImage` was called -/
  acquireCalls : Nat
  /-- the assertion `result == VK_SUCCESS || result == VK_SUBOPTIMAL_KHR`
  failed, aborting the process -/
  fatal : Bool
deriving DecidableEq, Repr

/-- Source `Renderer::beginFrame`, lines 289-295: acquire the next image; on
`VK_ERROR_OUT_OF_DATE_KHR` recreate the swap chain and acquire once more;
then assert the (possibly retried) result is success or suboptimal.
`first` is the result of the initial acquisition and `retry` the result
the swap chain would report on a second attempt. -/
def beginFrameAcquire (first retry : VkAcquireResult) : AcquireOutcome :=
  if first = .errorOutOfDateKHR then
    { recreations := 1
      acquireCalls := 2
      fatal := decide (¬ (retry = .success ∨ retry = .suboptimalKHR)) }
  else
    { recreations := 0
      acquireCalls := 1
      fatal := decide (¬ (first = .success ∨ first = .suboptimalKHR)) }

/-- The kinds of render pass registered by `Renderer::createFrameGraph`
(`renderer.cpp`, lines 246-280). -/
inductive PassKind where
  | geometry
  | culling
  | sceneUpdate
  | gpuDrivenGeometry
  | skyBox
  | lighting
  | present
  | uiOverlay
  | postProcessing
  | bloom
  | transparent
deriving DecidableEq, Repr

/-- Source `Renderer::createFrameGraph`, lines 246-280: with
`ENABLE_GPU_DRIVEN_RENDERING` off, a `GeometryPass` is added; with it on,
`CullingPass`, `SceneUpdatePass` and `GPUDrivenGeometry` are added; then
the shared tail of passes. The `SSAOPass` registration is commented out
in the source and therefore absent. -/
def createFrameGraph (gpuDrivenRendering : Bool) : List PassKind :=
  (if gpuDrivenRendering then
    [.culling, .sceneUpdate, .gpuDrivenGeometry]
  else
    [.geometry]) ++
  [.skyBox, .lighting, .present, .uiOverlay, .postProcessing, .bloom,
    .transparent]

/-- Modelled from the spec: the `FrameGraph` implementation is not under
the sources at hand. `compile()` "finalizes resource bindings for all
passes" and "passes may not be added post-compile" (§3, §4.1), so the set
of registered passes is unchanged by compilation. -/
def FrameGraph.compile (passes : List PassKind) : List PassKind :=
  passes

/-- Source `Renderer::endFrame`, lines 341-345: the number of
`recreateSwapChain()` calls made by the present-handling branch — the
swap chain is recreated when `present()` returns
`VK_ERROR_OUT_OF_DATE_KHR` or `VK_SUBOPTIMAL_KHR`, or the window's
resized flag is set. -/
def endFramePresentRecreations (result : VkAcquireResult)
    (wasResized : Bool) : Nat :=
  if result = .errorOutOfDateKHR ∨ result = .suboptimalKHR ∨
      wasResized = true then 1 else 0

/-- C1 (amended): after `n` completed `renderFrame` calls the frame-slot
index equals `n % fif`; hence before the `N`-th call's internal wrap it
equals `(N − 1) % fif`, and only after that wrap does it equal `N % fif`. -/
theorem frameIndex_before_wrap (fif N : Nat) (hf : 1 ≤ fif) (hN : 1 ≤ N) :
    frameIndexAfter fif (N - 1) = (N - 1) % fif ∧
      frameIndexAfter fif N = N % fif := by
  have key : ∀ n, frameIndexAfter fif n = n % fif := by
    intro n
    induction n with
    | zero =>
      simp [frameIndexAfter, Nat.zero_mod]
    | succ m ih =>
      simp only [frameIndexAfter, advanceFrameIndex, ih, Nat.mod_add_mod]
  exact ⟨key (N - 1), key N⟩

/-- C1 witness: concrete instantiation at `fif = 2`, `N = 3`. -/
theorem frameIndex_before_wrap_witness :
    frameIndexAfter 2 (3 - 1) = (3 - 1) % 2 ∧ frameIndexAfter 2 3 = 3 % 2 :=
  frameIndex_before_wrap 2 3 (by decide) (by decide)

/-- C1 counterexample: the claim as stated — the index equals
`N % FRAMES_IN_FLIGHT` *before* the `N`-th call's wrap — fails already at
`N = 1` with two frames in flight: a fresh `Renderer` has index `0` when
the first call reaches `endFrame`'s wrap, but `1 % 2 = 1`. -/
theorem frameIndex_claim_counterexample :
    ¬ (frameIndexAfter 2 (1 - 1) = 1 % 2) := by
  decide

lemma add_mod_ne (fif k j : Nat) (hk : k < fif) (hj1 : 1 ≤ j)
    (hj2 : j < fif) : (k + j) % fif ≠ k := by
  intro h
  have hkk : k % fif = k := Nat.mod_eq_of_lt hk
  have hmod : Nat.ModEq fif k (k + j) := by
    unfold Nat.ModEq
    omega
  have hdvd : fif ∣ (k + j) - k :=
    (Nat.modEq_iff_dvd' (Nat.le_add_right k j)).mp hmod
  rw [Nat.add_sub_cancel_left] at hdvd
  have := Nat.le_of_dvd (by omega) hdvd
  omega

/-- C3: a deletion-queue entry enqueued while the frame-slot index is `k`
is not flushed by any of the first `fif − 1` subsequent `endFrame` calls
(none of them flushes slot `k`), and the `fif`-th subsequent `endFrame`
— completing the full cycle back to slot `k` — is the one that flushes
slot `k`. -/
theorem deletionQueue_full_cycle (fif k : Nat) (hk : k < fif) :
    k ∉ flushedSlots fif k (fif - 1) ∧
      (endFrameWrapAndFlush fif (k + (fif - 1))).2 = k := by
  constructor
  · have main : ∀ n, n < fif → k ∉ flushedSlots fif k n := by
      intro n
      induction n with
      | zero =>
        intro _ h
        simp [flushedSlots] at h
      | succ m ih =>
        intro hm h
        simp only [flushedSlots, endFrameWrapAndFlush, List.mem_append,
          List.mem_singleton] at h
        rcases h with h | h
        · exact ih (by omega) h
        · have hrw : k + m + 1 = k + (m + 1) := by omega
          rw [hrw] at h
          exact add_mod_ne fif k (m + 1) hk (by omega) hm h.symm
    exact main (fif - 1) (by omega)
  · show (k + (fif - 1) + 1) % fif = k
    have hrw : k + (fif - 1) + 1 = k + fif := by omega
    rw [hrw, Nat.add_mod_right]
    exact Nat.mod_eq_of_lt hk

/-- C3 witness: with two frames in flight and an entry enqueued at slot 1,
the first subsequent `endFrame` flushes only slot 0, and the second
flushes slot 1. -/
theorem deletionQueue_full_cycle_witness :
    1 ∉ flushedSlots 2 1 (2 - 1) ∧
      (endFrameWrapAndFlush 2 (1 + (2 - 1))).2 = 1 :=
  deletionQueue_full_cycle 2 1 (by decide)

/-- C4: when the first acquisition reports `VK_ERROR_OUT_OF_DATE_KHR`,
`beginFrame` triggers exactly one surface recreation and exactly one
retry (two acquire calls in total); the retry is fatal exactly when its
result is neither success nor suboptimal; and no execution of the
acquisition prefix ever performs more than two acquire calls. -/
theorem beginFrame_acquire_retry_once :
    ∀ first retry : VkAcquireResult,
      (beginFrameAcquire .errorOutOfDateKHR retry).recreations = 1 ∧
      (beginFrameAcquire .errorOutOfDateKHR retry).acquireCalls = 2 ∧
      ((beginFrameAcquire .errorOutOfDateKHR retry).fatal = false ↔
        (retry = .success ∨ retry = .suboptimalKHR)) ∧
      (beginFrameAcquire first retry).acquireCalls ≤ 2 := by
  decide

/-- C5: for either value of `ENABLE_GPU_DRIVEN_RENDERING`, the compiled
frame graph contains the CPU-driven strategy (`GeometryPass`) or the
GPU-driven strategy (`CullingPass`, `SceneUpdatePass`,
`GPUDrivenGeometry`), and never a pass of both strategies at once. -/
theorem frameGraph_exclusive_geometry_strategy :
    ∀ gpuDrivenRendering : Bool,
      (PassKind.geometry ∈
          FrameGraph.compile (createFrameGraph gpuDrivenRendering) ∨
        (PassKind.culling ∈
            FrameGraph.compile (createFrameGraph gpuDrivenRendering) ∧
          PassKind.sceneUpdate ∈
            FrameGraph.compile (createFrameGraph gpuDrivenRendering) ∧
          PassKind.gpuDrivenGeometry ∈
            FrameGraph.compile (createFrameGraph gpuDrivenRendering))) ∧
      ¬ (PassKind.geometry ∈
            FrameGraph.compile (createFrameGraph gpuDrivenRendering) ∧
          (PassKind.culling ∈
              FrameGraph.compile (createFrameGraph gpuDrivenRendering) ∨
            PassKind.sceneUpdate ∈
              FrameGraph.compile (createFrameGraph gpuDrivenRendering) ∨
            PassKind.gpuDrivenGeometry ∈
              FrameGraph.compile (createFrameGraph gpuDrivenRendering))) := by
  decide

/-- C7: `endFrame` recreates the swap chain exactly when presentation
reports out-of-date or suboptimal or the window's resized flag is set;
in particular a suboptimal present result triggers recreation in that
very call. -/
theorem endFrame_recreation_iff :
    ∀ (result : VkAcquireResult) (wasResized : Bool),
      (endFramePresentRecreations result wasResized = 1 ↔
        (result = .errorOutOfDateKHR ∨ result = .suboptimalKHR ∨
          wasResized = true)) ∧
      endFramePresentRecreations .suboptimalKHR false = 1 := by
  decide

/-- C2: in every reachable state of the Draw Batch Registry (after any
sequence of `sceneChanged` calls), `staticInstanceCount() +
dynamicInstanceCount() = instanceCount()`. -/
theorem registry_counts_invariant (scenes : List (List InstanceRecord)) :
    (DrawBatchRegistry.afterScenes scenes).staticInstanceCount +
        (DrawBatchRegistry.afterScenes scenes).dynamicInstanceCount =
      (DrawBatchRegistry.afterScenes scenes).instanceCount := by
  exact length_filter_cls _

/-- Source `benchmarkFrameTimes`, line 29: `WARMUP_FRAMES = 1000`. -/
def WARMUP_FRAMES : Nat := 1000

/-- Source `benchmarkFrameTimes`, line 30: `MEASURED_FRAMES = 1000`. -/
def MEASURED_FRAMES : Nat := 1000

/-- Instance statistics of the Draw Batch Registry as read by the
benchmark header (`renderer.cpp`, lines 81-83). -/
structure RegistryCounts where
  total : Nat
  staticCount : Nat
  dynamicCount : Nat
deriving DecidableEq, Repr

/-- One diagnostic artifact (`frame_times.csv`): the instance counts
written in the header block and the leading `Frame` column value of each
data row produced by the loop at lines 100-117. -/
structure BenchFile where
  headerCounts : RegistryCounts
  dataRows : List Nat
deriving DecidableEq, Repr

/-- Source `benchmarkFrameTimes`, lines 26-122: one call of the harness.
With `frameCount` in the measurement window the call records samples; at
`frameCount = WARMUP_FRAMES + MEASURED_FRAMES` it writes the one file,
whose header reads the registry's counts at this very call and whose row
loop emits `MEASURED_FRAMES` rows labelled `i + 1`; otherwise (warm-up,
or past the trigger) it does nothing. `frameCount` is incremented last in
every case. Returns the new `frameCount` and the file written, if any. -/
def benchmarkFrameTimes (counts : RegistryCounts) (frameCount : Nat) :
    Nat × Option BenchFile :=
  if WARMUP_FRAMES ≤ frameCount ∧
      frameCount < WARMUP_FRAMES + MEASURED_FRAMES then
    (frameCount + 1, none)
  else if frameCount = WARMUP_FRAMES + MEASURED_FRAMES then
    (frameCount + 1,
      some { headerCounts := counts
             dataRows := (List.range MEASURED_FRAMES).map (fun i => i + 1) })
  else
    (frameCount + 1, none)

/-- A scripted run of `n` ticks: `renderFrame` calls `benchmarkFrameTimes`
once per tick (line 197); the static `frameCount` starts at `0`.
`reg t` is the registry's instance statistics at tick `t`. Returns the
final `frameCount` and every file written during the run, in order. -/
def runBenchmark (reg : Nat → RegistryCounts) : Nat → Nat × List BenchFile
  | 0 => (0, [])
  | n + 1 =>
    let prev := runBenchmark reg n
    let step := benchmarkFrameTimes (reg n) prev.1
    (step.1, prev.2 ++ step.2.toList)

lemma benchmarkFrameTimes_fst (c : RegistryCounts) (fc : Nat) :
    (benchmarkFrameTimes c fc).1 = fc + 1 := by
  unfold benchmarkFrameTimes
  by_cases hc : WARMUP_FRAMES ≤ fc ∧
      fc < WARMUP_FRAMES + MEASURED_FRAMES
  · rw [if_pos hc]
  · rw [if_neg hc]
    by_cases he : fc = WARMUP_FRAMES + MEASURED_FRAMES
    · rw [if_pos he]
    · rw [if_neg he]

lemma runBenchmark_fst (reg : Nat → RegistryCounts) (n : Nat) :
    (runBenchmark reg n).1 = n := by
  induction n with
  | zero => rfl
  | succ m ih =>
    simp only [runBenchmark, benchmarkFrameTimes_fst, ih]

lemma benchmarkFrameTimes_snd_none (c : RegistryCounts) (fc : Nat)
    (h : fc ≠ WARMUP_FRAMES + MEASURED_FRAMES) :
    (benchmarkFrameTimes c fc).2 = none := by
  unfold benchmarkFrameTimes
  by_cases hc : WARMUP_FRAMES ≤ fc ∧
      fc < WARMUP_FRAMES + MEASURED_FRAMES
  · rw [if_pos hc]
  · rw [if_neg hc, if_neg h]

lemma runBenchmark_succ (reg : Nat → RegistryCounts) (n : Nat) :
    runBenchmark reg (n + 1) =
      ((benchmarkFrameTimes (reg n) (runBenchmark reg n).1).1,
        (runBenchmark reg n).2 ++
          (benchmarkFrameTimes (reg n) (runBenchmark reg n).1).2.toList) :=
  rfl

lemma runBenchmark_snd_before (reg : Nat → RegistryCounts) (n : Nat)
    (h : n ≤ WARMUP_FRAMES + MEASURED_FRAMES) :
    (runBenchmark reg n).2 = [] := by
  induction n with
  | zero => rfl
  | succ m ih =>
    have htot : WARMUP_FRAMES + MEASURED_FRAMES = 2000 := rfl
    simp only [runBenchmark, runBenchmark_fst reg m, ih (by omega),
      benchmarkFrameTimes_snd_none (reg m) m (by omega),
      Option.toList_none, List.nil_append, List.append_nil]

lemma runBenchmark_snd_trigger (reg : Nat → RegistryCounts) :
    (runBenchmark reg (WARMUP_FRAMES + MEASURED_FRAMES + 1)).2 =
      [{ headerCounts := reg (WARMUP_FRAMES + MEASURED_FRAMES)
         dataRows := (List.range MEASURED_FRAMES).map (fun i => i + 1) }] := by
  rw [runBenchmark_succ reg (WARMUP_FRAMES + MEASURED_FRAMES),
    runBenchmark_fst reg (WARMUP_FRAMES + MEASURED_FRAMES),
    runBenchmark_snd_before reg (WARMUP_FRAMES + MEASURED_FRAMES)
      (le_refl _)]
  unfold benchmarkFrameTimes
  rw [if_neg (by decide), if_pos rfl]
  rfl

lemma runBenchmark_snd_after (reg : Nat → RegistryCounts) (m : Nat) :
    (runBenchmark reg (WARMUP_FRAMES + MEASURED_FRAMES + 1 + m)).2 =
      [{ headerCounts := reg (WARMUP_FRAMES + MEASURED_FRAMES)
         dataRows := (List.range MEASURED_FRAMES).map (fun i => i + 1) }] := by
  induction m with
  | zero => exact runBenchmark_snd_trigger reg
  | succ j ih =>
    have hrw : WARMUP_FRAMES + MEASURED_FRAMES + 1 + (j + 1) =
        (WARMUP_FRAMES + MEASURED_FRAMES + 1 + j) + 1 := by omega
    rw [hrw]
    simp only [runBenchmark,
      runBenchmark_fst reg (WARMUP_FRAMES + MEASURED_FRAMES + 1 + j),
      benchmarkFrameTimes_snd_none
        (reg (WARMUP_FRAMES + MEASURED_FRAMES + 1 + j))
        (WARMUP_FRAMES + MEASURED_FRAMES + 1 + j) (by omega),
      Option.toList_none, List.append_nil, ih]

/-- C6: a scripted run of exactly `WARMUP_FRAMES + MEASURED_FRAMES + 1`
ticks (1000 + 1000 + 1) produces exactly one diagnostic file; its data
rows number exactly `MEASURED_FRAMES` (1000); its header reports the
registry's counts at the triggering tick; and no run extended by any
number of further ticks ever writes a second file. -/
theorem benchmark_single_artifact (reg : Nat → RegistryCounts) :
    (runBenchmark reg (WARMUP_FRAMES + MEASURED_FRAMES + 1)).2 =
      [{ headerCounts := reg (WARMUP_FRAMES + MEASURED_FRAMES)
         dataRows := (List.range MEASURED_FRAMES).map (fun i => i + 1) }] ∧
    ((List.range MEASURED_FRAMES).map (fun i => i + 1)).length =
      MEASURED_FRAMES ∧
    ∀ m : Nat,
      ((runBenchmark reg (WARMUP_FRAMES + MEASURED_FRAMES + 1 + m)).2).length
        = 1 := by
  refine ⟨runBenchmark_snd_trigger reg,
    by rw [List.length_map, List.length_range], fun m => ?_⟩
  rw [runBenchmark_snd_after reg m]
  rfl

/-- Names of the profiling scopes opened inside `Renderer::renderFrame`
(`renderer.cpp`, lines 172, 188, 189). -/
inductive ScopeName where
  | renderFrameFunction
  | gpuFrameTime
  | cpuRenderFrame
deriving DecidableEq, Repr

/-- Observable events of one `Renderer::renderFrame` call. -/
inductive RenderEvent where
  | scopeOpen (name : ScopeName)
  | beginFrameCall
  | graphExecute
  | endFrameCall
  | benchmarkSample
  | scopeClose (name : ScopeName)
deriving DecidableEq, Repr

/-- Source `Renderer::renderFrame`, lines 170-198, as its ordered event
sequence. `AGX_PROFILE_FUNCTION()` (line 172) opens a function-wide
scope; `beginFrame()` runs at line 174; the scopes "GPU Frame Time"
(line 188) and "CPU Render Frame" (line 189) are opened inside the inner
block, around `m_frameGraph.execute` (line 191) only, and close at that
block's end (line 192) in reverse construction order; `endFrame()` runs
at line 193 and `benchmarkFrameTimes` at line 197. -/
def renderFrameTrace : List RenderEvent :=
  [ .scopeOpen .renderFrameFunction,
    .beginFrameCall,
    .scopeOpen .gpuFrameTime,
    .scopeOpen .cpuRenderFrame,
    .graphExecute,
    .scopeClose .cpuRenderFrame,
    .scopeClose .gpuFrameTime,
    .endFrameCall,
    .benchmarkSample,
    .scopeClose .renderFrameFunction ]

/-- Position of an event in the `renderFrame` event sequence. -/
def renderFramePos (e : RenderEvent) : Nat :=
  renderFrameTrace.indexOf e

/-- C8 counterexample: the claim as stated — the "CPU Render Frame" scope
opens before `beginFrame` runs and closes only after `endFrame` has
completed — is false of `renderFrame`: the scope opens after `beginFrame`
and closes before `endFrame`. -/
theorem cpuRenderFrame_scope_claim_false :
    ¬ (renderFramePos (.scopeOpen .cpuRenderFrame) <
          renderFramePos .beginFrameCall ∧
        renderFramePos .endFrameCall <
          renderFramePos (.scopeClose .cpuRenderFrame)) := by
  decide

/-- C8 (amended): in every `renderFrame` call the "CPU Render Frame"
timing scope opens after `beginFrame` has run, wraps exactly the Frame
Graph execution, and closes before `endFrame` runs: the duration it
records covers the graph execution but neither `beginFrame` nor
`endFrame`. -/
theorem cpuRenderFrame_scope_wraps_execute_only :
    renderFramePos .beginFrameCall <
        renderFramePos (.scopeOpen .cpuRenderFrame) ∧
      renderFramePos (.scopeOpen .cpuRenderFrame) <
        renderFramePos .graphExecute ∧
      renderFramePos .graphExecute <
        renderFramePos (.scopeClose .cpuRenderFrame) ∧
      renderFramePos (.scopeClose .cpuRenderFrame) <
        renderFramePos .endFrameCall := by
  decide

/-- Surface pixel extent as reported by `m_window.extent()`. -/
structure VkExtent2D where
  width : Nat
  height : Nat
deriving DecidableEq, Repr

/-- Source `Renderer::recreateSwapChain`, line 234: the loop guard
`extent.width == 0 || extent.height == 0` (surface minimized). -/
def isMinimized (e : VkExtent2D) : Bool :=
  e.width == 0 || e.height == 0

/-- Source `Renderer::recreateSwapChain`, lines 233-238: read the extent;
while it is zero in either dimension, block on `glfwWaitEvents()` and
re-read. `reads` scripts the successive values `m_window.extent()`
returns. Returns the number of `glfwWaitEvents` calls made and the
extent with which the loop exits (and the resize proceeds); `none` when
every scripted read is zero-extent (the loop is still blocked). -/
def minimizedWaitLoop : List VkExtent2D → Option (Nat × VkExtent2D)
  | [] => none
  | e :: rest =>
    if isMinimized e then
      (minimizedWaitLoop rest).map (fun p => (p.1 + 1, p.2))
    else
      some (0, e)

/-- C9: whenever the scripted extent reads consist of a zero-extent
prefix followed by a nonzero extent, the wait loop terminates, blocks
(calls `glfwWaitEvents`) once per zero-extent observation, and proceeds
exactly at the first nonzero extent. -/
theorem minimizedWaitLoop_first_nonzero (pre : List VkExtent2D)
    (e : VkExtent2D) (rest : List VkExtent2D)
    (hpre : ∀ x ∈ pre, isMinimized x = true)
    (he : isMinimized e = false) :
    minimizedWaitLoop (pre ++ e :: rest) = some (pre.length, e) := by
  induction pre with
  | nil =>
    simp [minimizedWaitLoop, he]
  | cons a t ih =>
    have ha : isMinimized a = true := hpre a (by simp)
    have ht : ∀ x ∈ t, isMinimized x = true := fun x hx =>
      hpre x (by simp [hx])
    simp [minimizedWaitLoop, ha, ih ht]

/-- C9 witness: for the scripted reads `[(0,0), (0,0), (1920,1080)]` the
loop blocks through both zero extents (two `glfwWaitEvents` calls) and
proceeds at `(1920, 1080)`. -/
theorem minimizedWaitLoop_first_nonzero_witness :
    minimizedWaitLoop ([⟨0, 0⟩, ⟨0, 0⟩] ++ ⟨1920, 1080⟩ :: []) =
      some (2, ⟨1920, 1080⟩) :=
  minimizedWaitLoop_first_nonzero [⟨0, 0⟩, ⟨0, 0⟩] ⟨1920, 1080⟩ []
    (by decide) (by decide)

/-- State of a `VkFence` as the CPU side can observe it: signaled,
unsignaled with no submission pending (waiting on it would block
forever), or reset with a pending submission that will signal it. -/
inductive FenceState where
  | signaled
  | unsignaled
  | pending
deriving DecidableEq, Repr

/-- Per-slot in-flight fence states plus the current frame-slot index. -/
structure SyncState where
  currentFrameIndex : Nat
  fences : Nat → FenceState

/-- Source `Renderer::createFrameContext`, lines 207-228: every slot's
`inFlightFence` is created with `VK_FENCE_CREATE_SIGNALED_BIT`;
`m_currentFrameIndex` starts at `0`. -/
def initialSyncState : SyncState :=
  { currentFrameIndex := 0, fences := fun _ => .signaled }

/-- Source `Renderer::beginFrame`, line 287: `vkWaitForFences` on the
current slot's fence with an unbounded timeout. A signaled fence returns
immediately; a pending one returns once the GPU signals it — in both
cases the fence is signaled afterwards. An unsignaled fence with no
pending submission would block forever. -/
def beginFrameSync (s : SyncState) : SyncState :=
  { s with
    fences := fun i =>
      if i = s.currentFrameIndex then .signaled else s.fences i }

/-- Source `Renderer::endFrame`, lines 338-339 and 347: `vkResetFences`
on the current slot's fence immediately followed by the `vkQueueSubmit`
that signals it on completion (the two are a single transition to
`pending` — no other statement intervenes), then the cyclic slot
advance. -/
def endFrameSync (fif : Nat) (s : SyncState) : SyncState :=
  { currentFrameIndex := (s.currentFrameIndex + 1) % fif
    fences := fun i =>
      if i = s.currentFrameIndex then .pending else s.fences i }

/-- Renderer sync state after `n` complete `renderFrame` calls: each call
runs `beginFrame` (fence wait) then `endFrame` (reset + submit +
advance). -/
def syncStateAfter (fif : Nat) : Nat → SyncState
  | 0 => initialSyncState
  | n + 1 => endFrameSync fif (beginFrameSync (syncStateAfter fif n))

/-- C10: every slot's fence starts signaled, and in every reachable state
no fence is ever unsignaled-without-pending-submission; in particular the
fence the next `beginFrame` waits on is signaled or pending, so the
wait-forever branch is unreachable — including the first frame of each
slot, where the construction-time signaled state is what the wait sees. -/
theorem inFlightFence_wait_safe (fif n : Nat) :
    (∀ i, initialSyncState.fences i = .signaled) ∧
      (∀ i, (syncStateAfter fif n).fences i ≠ .unsignaled) ∧
      (syncStateAfter fif n).fences
          (syncStateAfter fif n).currentFrameIndex ≠ .unsignaled := by
  have main : ∀ m i, (syncStateAfter fif m).fences i ≠ .unsignaled := by
    intro m
    induction m with
    | zero =>
      intro i h
      exact FenceState.noConfusion h
    | succ k ih =>
      intro i
      simp only [syncStateAfter, endFrameSync, beginFrameSync]
      by_cases h1 : i = (syncStateAfter fif k).currentFrameIndex
      · rw [if_pos h1]
        exact fun h => FenceState.noConfusion h
      · rw [if_neg h1, if_neg h1]
        exact ih i
  exact ⟨fun _ => rfl, main n, main n _⟩

end Aegis
